import Mathlib

/-!
Verification of the AI request-orchestration and rule-augmented analysis
layer of the student task-planning backend.

The JavaScript source is shallowly embedded: pure helpers become Lean
functions; each network call (fetch to a provider, `callClaude`) becomes an
explicit oracle parameter of type `Except`; thrown JS errors become the
`Except.error` branch, and `try`/`catch` becomes a `match` on the `Except`
result of the body.  JS numbers that carry loads/averages are modelled as `ℚ`
(all arithmetic in scope is exact at this scale); `Math.round` is modelled
as floor of `q + 1/2`.
-/

namespace AiTimetable

/-! ### JS string primitives

Kernel-reducible models of the JavaScript string methods the source uses
(`trim`, `toLowerCase`, `includes`, `startsWith`, newline split), working
over `String.data` so concrete instances evaluate by `decide`/`rfl`. -/

/-- JS `String.prototype.trim` (and the regex class `\s`): strip leading and
trailing whitespace. -/
def jsTrimChars (cs : List Char) : List Char :=
  ((cs.dropWhile Char.isWhitespace).reverse.dropWhile Char.isWhitespace).reverse

/-- JS `s.trim()`. -/
def jsTrim (s : String) : String := ⟨jsTrimChars s.data⟩

/-- JS `s.toLowerCase()` (on the ASCII range the source feeds it). -/
def jsToLower (s : String) : String := ⟨s.data.map Char.toLower⟩

/-- Whether `pat` occurs as a contiguous run inside `cs`. -/
def jsIncludesChars (pat : List Char) : List Char → Bool
  | [] => pat.isEmpty
  | c :: rest => pat.isPrefixOf (c :: rest) || jsIncludesChars pat rest

/-- JS `s.includes(pat)`. -/
def jsIncludes (s pat : String) : Bool := jsIncludesChars pat.data s.data

/-- JS `s.startsWith(pat)`. -/
def jsStartsWith (s pat : String) : Bool := pat.data.isPrefixOf s.data

/-- Helper for newline splitting: split a character list at newlines. -/
def splitLinesChars : List Char → List (List Char)
  | [] => [[]]
  | c :: rest =>
    match splitLinesChars rest with
    | [] => [[]]
    | l :: ls => if c = '\n' then [] :: l :: ls else (c :: l) :: ls

/-- JS newline split of `s`, i.e. split on the newline character. -/
def jsSplitNewlines (s : String) : List String :=
  (splitLinesChars s.data).map (fun cs => ⟨cs⟩)

/-! ### Orchestrator (`backend/AI/aiAPI.js`) -/

/-- Default provider order (priority-based), `PROVIDER_ORDER` in `aiAPI.js`. -/
def PROVIDER_ORDER : List String := ["gemini", "groq", "huggingface"]

/-- The provider list actually iterated by `callAI`: the (lower-cased)
`AI_PROVIDER` override moved to the front when present, followed by the
default order with the override filtered out. -/
def providersFor : Option String → List String
  | none => PROVIDER_ORDER
  | some p => p :: PROVIDER_ORDER.filter (fun q => ¬ q = p)

/-- The single aggregate failure message thrown when every provider fails. -/
def allProvidersMsg : String := "All free AI providers are currently unavailable"

/-- The provider loop body of `callAI`: for each name, a known provider is
invoked through `env` (which folds together the API-key presence check and
the adapter call — both kinds of failure are caught identically by the
`catch` and fall through); an unknown name hits `default: continue`. -/
def tryProviders (env : String → Except String String) : List String → Except String String
  | [] => .error allProvidersMsg
  | p :: rest =>
    if p ∈ PROVIDER_ORDER then
      match env p with
      | .ok t => .ok t
      | .error _ => tryProviders env rest
    else tryProviders env rest

/-- Source `callAI(prompt, maxTokens)` from `aiAPI.js`; `primary` is the optional
`AI_PROVIDER` override, `env` maps a provider name to its adapter outcome
for the fixed prompt of this call. -/
def callAI (primary : Option String) (env : String → Except String String) :
    Except String String :=
  tryProviders env (providersFor primary)

/-! ### HuggingFace adapter (`backend/AI/huggingfaceAPI.js`) -/

/-- One network response in the trace an invocation of `callHuggingFace`
consumes: either a success envelope with its extracted `generated_text`,
or a non-ok transport response whose error body does (`loading := true`)
or does not contain the substring `"loading"`.  (A success envelope with
no extractable text throws like a non-loading error and is folded into
`failure false`.) -/
inductive HFResp where
  | success (text : String)
  | failure (loading : Bool)
deriving DecidableEq

/-- Whether a response is a model-warming ("loading") error. -/
def isLoading : HFResp → Bool
  | .failure true => true
  | _ => false

/-- The fetch/retry loop of `callHuggingFace`, run against a trace of
responses: a success returns the trimmed text; a loading error sleeps 20 s
and recursively re-invokes the whole call on the rest of the trace; any
other error is thrown.  (An exhausted trace stands for the network
refusing further requests.) -/
def hfRun : List HFResp → Except String String
  | [] => .error "fetch failed"
  | .success t :: _ => .ok (jsTrim t)
  | .failure true :: rest => hfRun rest
  | .failure false :: _ => .error "HuggingFace API Error"

/-- Source `callHuggingFace(prompt, maxTokens)`: the API-key guard runs before any
request; then the fetch/retry loop consumes the response trace. -/
def callHuggingFace (keySet : Bool) (resps : List HFResp) : Except String String :=
  if keySet then hfRun resps
  else .error "HUGGINGFACE_API_KEY is not set in environment variables"

/-- Number of HTTP requests one invocation issues against a given trace
(each consumed response is one request; retries re-enter the loop). -/
def hfAttempts : List HFResp → Nat
  | [] => 0
  | .failure true :: rest => 1 + hfAttempts rest
  | _ :: _ => 1

/-! ### Anti-overthinking guard (`overthinkingGuard` module)

The `callClaude` network call inside `generateAIWarning` is an external
effect; it is passed in as an oracle `ai : Nat → String → Except String
String` taking the edit count and the severity label that parameterize the
prompt. -/

/-- The JSON object `checkOverthinking` resolves with.  JS fields that are
absent on some paths (`severity`, `editCount`, `daysInactive`, `message`)
are `Option`s; the absent `fallbackMode` field is `false`; the wall-clock
`timestamp` is not modelled. -/
structure GuardResult where
  success : Bool
  triggered : Bool
  severity : Option String
  editCount : Option Nat
  daysInactive : Option Nat
  message : Option String
  fallbackMode : Bool
deriving DecidableEq

/-- Postprocessing of the AI warning response: trim, then delete every
single- or double-quote character (the global-replace in the source). -/
def stripQuotes (s : String) : String :=
  ⟨s.data.filter (fun c => ¬ (c = Char.ofNat 39 ∨ c = Char.ofNat 34))⟩

/-- Source `generateAIWarning(editCount, severity)`: one `callClaude` invocation
followed by trim-and-strip-quotes postprocessing. -/
def generateAIWarning (editCount : Nat) (severity : String)
    (ai : Nat → String → Except String String) : Except String String :=
  (ai editCount severity).map (fun r => stripQuotes (jsTrim r))

/-- Source `getRuleBasedWarning(editCount)` from the overthinking guard. -/
def getRuleBasedWarning (editCount : Nat) : String :=
  if editCount ≥ 10 then
    "🛑 STOP PLANNING! You\x27ve edited this 10+ times. Start executing NOW."
  else if editCount ≥ 7 then
    "⚠️ Too much planning. Time to take action. Execution beats perfection."
  else if editCount ≥ 5 then
    "💭 You\x27ve planned enough. Start working on your first task right now."
  else
    "📝 Your plan looks good. Time to execute!"

/-- Source `getInactivityMessage(daysInactive)` from the overthinking guard. -/
def getInactivityMessage (daysInactive : Nat) : String :=
  if daysInactive ≥ 7 then
    "⏰ It\x27s been a week! Your plan is waiting. Start with the easiest task today."
  else if daysInactive ≥ 5 then
    "⏰ 5 days without action. Don\x27t let the plan gather dust. Begin now!"
  else
    "⏰ 3+ days inactive. Even 10 minutes of work keeps momentum alive."

/-- Source `shouldWarnUser(editCount, daysInactive)`. -/
def shouldWarnUser (editCount daysInactive : Nat) : Bool :=
  editCount ≥ 5 || daysInactive ≥ 3

/-- Source `getSeverityLevel(editCount, daysInactive)`: the four-level scale. -/
def getSeverityLevel (editCount daysInactive : Nat) : String :=
  if editCount ≥ 10 then "critical"
  else if editCount ≥ 7 ∨ daysInactive ≥ 7 then "severe"
  else if editCount ≥ 5 ∨ daysInactive ≥ 3 then "moderate"
  else "none"

/-- Order embedding of the documented {none, moderate, severe, critical}
scale, for stating monotonicity. -/
def sevRank (s : String) : Nat :=
  if s = "critical" then 3
  else if s = "severe" then 2
  else if s = "moderate" then 1
  else 0

/-- The `try` block of `checkOverthinking`: threshold booleans, early
non-triggered return, then the severe/moderate/inactive message chain.
An `ai` failure propagates as `Except.error`. -/
def checkOverthinkingBody (editCount daysInactive : Nat)
    (ai : Nat → String → Except String String) : Except String GuardResult :=
  if editCount < 5 ∧ daysInactive < 3 then
    .ok { success := true, triggered := false, severity := none, editCount := none,
          daysInactive := none, message := none, fallbackMode := false }
  else if editCount ≥ 10 then
    (generateAIWarning editCount "severe" ai).map (fun m =>
      { success := true, triggered := true, severity := some "severe",
        editCount := some editCount, daysInactive := some daysInactive,
        message := some m, fallbackMode := false })
  else if editCount ≥ 5 then
    (generateAIWarning editCount "moderate" ai).map (fun m =>
      { success := true, triggered := true, severity := some "moderate",
        editCount := some editCount, daysInactive := some daysInactive,
        message := some m, fallbackMode := false })
  else
    .ok { success := true, triggered := true, severity := some "inactive",
          editCount := some editCount, daysInactive := some daysInactive,
          message := some (getInactivityMessage daysInactive), fallbackMode := false }

/-- Source `checkOverthinking(editCount, daysInactive)`: the `try` body with its
`catch` substituting the rule-based fallback result. -/
def checkOverthinking (editCount daysInactive : Nat)
    (ai : Nat → String → Except String String) : GuardResult :=
  match checkOverthinkingBody editCount daysInactive ai with
  | .ok r => r
  | .error _ =>
    { success := true, triggered := editCount ≥ 5,
      severity := some (if editCount ≥ 10 then "severe" else "moderate"),
      editCount := none, daysInactive := none,
      message := some (getRuleBasedWarning editCount), fallbackMode := true }

/-! ### Feasibility checker (`backend/AI/feasibilityCheck.js`)

Only the rule-based phase is modelled (`performRuleBasedChecks` and its two
helpers); the AI elaboration phase is a separate network call that the
claims here do not touch.  Loads and averages are JS numbers, modelled as
`ℚ`. -/

/-- A `dailyTasks` entry; only its `day` field is ever read by the
rule-based phase. -/
structure PlanTask where
  day : String
deriving DecidableEq

/-- One entry of the `dailyBreakdown` produced by `calculateDailyLoads`. -/
structure DayLoad where
  day : String
  taskCount : Nat
  load : Nat
  label : String
deriving DecidableEq

/-- The `days` array of `groupTasksByDay`: the seven canonical day names. -/
def DAYS : List String :=
  ["Monday", "Tuesday", "Wednesday", "Thursday", "Friday", "Saturday", "Sunday"]

/-- Source `groupTasksByDay(dailyTasks)`: the object `{Monday: […], …}`, modelled
as an association list in the fixed `DAYS` insertion order. -/
def groupTasksByDay (dailyTasks : List PlanTask) : List (String × List PlanTask) :=
  DAYS.map (fun day => (day, dailyTasks.filter (fun t => t.day = day)))

/-- Source `calculateDailyLoads(tasksByDay)`: per-day load `taskCount × 2` (the
assumed flat 2 points per task) and its label. -/
def calculateDailyLoads (tasksByDay : List (String × List PlanTask)) : List DayLoad :=
  tasksByDay.map (fun p =>
    let taskCount := p.2.length
    let load := taskCount * 2
    let label := if load = 0 then "Free"
      else if load ≤ 3 then "Light"
      else if load ≥ 7 then "Heavy"
      else "Balanced"
    { day := p.1, taskCount := taskCount, load := load, label := label })

/-- JS `Math.round`: round half toward positive infinity. -/
def jsRound (q : ℚ) : ℤ := ⌊q + 1/2⌋

/-- The analysis object returned by `performRuleBasedChecks` (the
`dailyBreakdown` and every derived field). -/
structure FeasAnalysis where
  totalTasks : Nat
  totalLoad : Nat
  averageLoad : ℚ
  heavyDays : List String
  emptyDays : List String
  dailyBreakdown : List DayLoad
  hasIssues : Bool
  feasible : Bool
  warnings : List String
deriving DecidableEq

/-- Source `performRuleBasedChecks(weeklyPlan)` with `weeklyPlan = {dailyTasks,
mood}`. -/
def performRuleBasedChecks (dailyTasks : List PlanTask) (mood : String) : FeasAnalysis :=
  let tasksByDay := groupTasksByDay dailyTasks
  let dailyLoads := calculateDailyLoads tasksByDay
  let heavyDays := (dailyLoads.filter (fun d => d.load ≥ 7)).map (fun d => d.day)
  let emptyDays := (dailyLoads.filter (fun d => d.load = 0)).map (fun d => d.day)
  let totalLoad : ℕ := (dailyLoads.map (fun d => d.load)).sum
  let avgLoad : ℚ := (totalLoad : ℚ) / 7
  { totalTasks := dailyTasks.length
    totalLoad := totalLoad
    averageLoad := (jsRound (avgLoad * 10) : ℚ) / 10
    heavyDays := heavyDays
    emptyDays := emptyDays
    dailyBreakdown := dailyLoads
    hasIssues := decide (heavyDays.length > 0) || decide (avgLoad > 5)
    feasible := decide (avgLoad ≤ 6) && decide (heavyDays.length ≤ 2)
    warnings :=
      (if heavyDays.length > 0 then
        ["⚠️ Heavy days detected: " ++ String.intercalate ", " heavyDays] else []) ++
      (if avgLoad > 5 then ["⚠️ Overall weekly load is high"] else []) ++
      (if mood = "tired" ∨ mood = "stressed" then
        ["⚠️ Your mood is " ++ mood ++ " - consider reducing task load"] else []) }

/-! ### Smart task downgrade (`backend/AI/taskDowngrade.js`)

The network call inside `getAIDowngrade` (a `callClaude` reference that the
module does not even import) is an oracle `ai : Except String String`. -/

/-- The `suggestions` sub-object of a downgrade result. -/
structure DowngradeSuggestions where
  ruleBased : String
  aiGenerated : Option String
deriving DecidableEq

/-- The object `suggestTaskDowngrade` resolves with; `difficulty` and
`missedCount` are absent on the fallback path, the wall-clock `timestamp`
is not modelled. -/
structure DowngradeResult where
  success : Bool
  originalTask : String
  difficulty : Option String
  missedCount : Option Nat
  suggestions : DowngradeSuggestions
  fallbackMode : Bool
  message : String
deriving DecidableEq

/-- Source `getRuleBasedDowngrade(taskName, difficulty)`: keyword category match
crossed with the difficulty level. -/
def getRuleBasedDowngrade (taskName difficulty : String) : String :=
  let taskLower := jsToLower taskName
  if jsIncludes taskLower "gym" || jsIncludes taskLower "workout" then
    if difficulty = "Hard" then "20-minute light cardio or stretching"
    else if difficulty = "Medium" then "10-minute walk or yoga"
    else "5-minute stretching or mobility exercises"
  else if jsIncludes taskLower "study" || jsIncludes taskLower "learn" ||
      jsIncludes taskLower "read" then
    if difficulty = "Hard" then "Review notes for 15 minutes"
    else if difficulty = "Medium" then "Skim important topics for 10 minutes"
    else "Quick 5-minute concept recap"
  else if jsIncludes taskLower "code" || jsIncludes taskLower "program" ||
      jsIncludes taskLower "debug" then
    if difficulty = "Hard" then "Read documentation or watch tutorial for 15 minutes"
    else if difficulty = "Medium" then "Review code concepts for 10 minutes"
    else "Practice one small coding problem (5-10 mins)"
  else if jsIncludes taskLower "write" || jsIncludes taskLower "essay" ||
      jsIncludes taskLower "report" then
    if difficulty = "Hard" then "Create outline or bullet points only"
    else if difficulty = "Medium" then "Write one paragraph or key points"
    else "Brainstorm ideas for 10 minutes"
  else if jsIncludes taskLower "practice" || jsIncludes taskLower "revision" then
    if difficulty = "Hard" then "Complete 3 easy problems"
    else if difficulty = "Medium" then "Review solved examples"
    else "Quick concept revision (10 mins)"
  else
    if difficulty = "Hard" then "Reduce scope to 20-30 minutes of easier work"
    else if difficulty = "Medium" then "Reduce to 15 minutes of simplified version"
    else "Spend just 10 minutes on the easiest part"

/-- Source `getAIDowngrade(taskName, difficulty, missedCount)`: one AI call whose
response is trimmed.  (In the source the called `callClaude` is not in
scope, so at runtime this always throws; the oracle keeps the model
general.) -/
def getAIDowngrade (ai : Except String String) : Except String String :=
  ai.map jsTrim

/-- Source `shouldSuggestDowngrade(missedCount, difficulty)`: escalation
thresholds per difficulty. -/
def shouldSuggestDowngrade (missedCount : Nat) (difficulty : String) : Bool :=
  if difficulty = "Hard" ∧ missedCount ≥ 2 then true
  else if difficulty = "Medium" ∧ missedCount ≥ 3 then true
  else if difficulty = "Easy" ∧ missedCount ≥ 4 then true
  else false

/-- Source `suggestTaskDowngrade(taskName, difficulty, missedCount)`: rule-based
suggestion first, then the AI call; the `catch` keeps only the rule-based
suggestion with a `fallbackMode` flag. -/
def suggestTaskDowngrade (taskName difficulty : String) (missedCount : Nat)
    (ai : Except String String) : DowngradeResult :=
  let ruleBasedSuggestion := getRuleBasedDowngrade taskName difficulty
  match getAIDowngrade ai with
  | .ok aiSuggestion =>
    { success := true, originalTask := taskName, difficulty := some difficulty,
      missedCount := some missedCount,
      suggestions := { ruleBased := ruleBasedSuggestion, aiGenerated := some aiSuggestion },
      fallbackMode := false,
      message := "You\x27ve missed \"" ++ taskName ++ "\" " ++ toString missedCount ++
        " times. Here\x27s an easier alternative to keep momentum:" }
  | .error _ =>
    { success := true, originalTask := taskName, difficulty := none, missedCount := none,
      suggestions := { ruleBased := getRuleBasedDowngrade taskName difficulty,
                       aiGenerated := none },
      fallbackMode := true,
      message := "Consider this easier alternative for \"" ++ taskName ++ "\":" }

/-! ### Response parser (`parseReflectionSections` in the weeklyReflection
module, and the inline bullet extraction of the `/generate-tasks` route) -/

/-- The four section keys, in the order `parseReflectionSections`
pre-initializes them. -/
def sectionKeys : List String :=
  ["whatWentWell", "whatWentWrong", "possibleReasons", "suggestions"]

/-- The header-detection `if/else if` chain: case-insensitive substring
match against the four known header phrases, first match wins. -/
def headerFor (cleanLine : String) : Option String :=
  let lower := jsToLower cleanLine
  if jsIncludes lower "what went well" then some "whatWentWell"
  else if jsIncludes lower "what went wrong" then some "whatWentWrong"
  else if jsIncludes lower "possible reasons" then some "possibleReasons"
  else if jsIncludes lower "suggestions" then some "suggestions"
  else none

/-- Whether a (trimmed) line is bullet-marked: starts with `-`, `•` or
`*`. -/
def isBulletLine (cleanLine : String) : Bool :=
  jsStartsWith cleanLine "-" || jsStartsWith cleanLine "•" || jsStartsWith cleanLine "*"

/-- The marker strip-and-trim applied to a trimmed bullet line: drop the
single marker character and trim (the trailing whitespace class of the
source regex is subsumed by the final trim). -/
def bulletContent (cleanLine : String) : String :=
  jsTrim ⟨cleanLine.data.drop 1⟩

/-- Source `sections[currentSection].push(content)` on the association-list model
of the sections object. -/
def pushSection (acc : List (String × List String)) (k : String) (v : String) :
    List (String × List String) :=
  acc.map (fun p => if p.1 = k then (p.1, p.2 ++ [v]) else p)

/-- One iteration of the `lines.forEach` body: state is (current section,
sections object). -/
def parseStep (st : Option String × List (String × List String)) (line : String) :
    Option String × List (String × List String) :=
  let cleanLine := jsTrim line
  match headerFor cleanLine with
  | some k => (some k, st.2)
  | none =>
    match st.1 with
    | some cur =>
      if isBulletLine cleanLine then
        let content := bulletContent cleanLine
        if ¬ content = "" then (st.1, pushSection st.2 cur content) else st
      else st
    | none => st

/-- The pre-initialized sections object: all four keys mapped to `[]`. -/
def initSections : List (String × List String) :=
  sectionKeys.map (fun k => (k, []))

/-- Source `parseReflectionSections(aiResponse)`: split on newlines, drop
blank-after-trim lines, then fold the header/bullet state machine. -/
def parseReflectionSections (aiResponse : String) : List (String × List String) :=
  let lines := (jsSplitNewlines aiResponse).filter (fun l => ¬ jsTrim l = "")
  (lines.foldl parseStep (none, initSections)).2

/-- The marker strip applied to the raw (untrimmed) line in the
generate-tasks route: the marker and following whitespace are removed
only when the marker is the very first character. -/
def stripLeadingBulletMarker (line : String) : String :=
  if jsStartsWith line "•" || jsStartsWith line "-" then
    ⟨(line.data.drop 1).dropWhile Char.isWhitespace⟩
  else line

/-- The inline task extraction of the `/generate-tasks` route
(`backend/routes/ai.js`): keep lines whose trimmed form starts with `•` or
`-`, strip a leading marker from the raw line, trim, drop empties. -/
def extractGeneratedTasks (aiResponse : String) : List String :=
  (((jsSplitNewlines aiResponse).filter (fun line =>
      jsStartsWith (jsTrim line) "•" || jsStartsWith (jsTrim line) "-")).map
    (fun line => jsTrim (stripLeadingBulletMarker line))).filter
    (fun task => task.data.length > 0)

/-- The bullet extraction exactly as the C8 claim words it: keep lines
whose trimmed form starts with `•`, `-` or `*`, strip the marker from the
trimmed form, trim the remainder, discard empties. -/
def claimedBulletExtract (text : String) : List String :=
  (((jsSplitNewlines text).filter (fun line =>
      jsStartsWith (jsTrim line) "•" || jsStartsWith (jsTrim line) "-" ||
      jsStartsWith (jsTrim line) "*")).map
    (fun line => jsTrim ⟨(jsTrim line).data.drop 1⟩)).filter
    (fun task => task.data.length > 0)

/-- The C8 amended behaviour as a single pass: a line is kept when its
trimmed form starts with `•` or `-` (not `*`); the marker and following
whitespace are stripped only when the marker starts the raw line, otherwise
the line is kept, trimmed, with its marker; empty results are dropped;
order is preserved and nothing is deduplicated. -/
def amendedBulletExtract (text : String) : List String :=
  (jsSplitNewlines text).foldr (fun line acc =>
    if jsStartsWith (jsTrim line) "•" || jsStartsWith (jsTrim line) "-" then
      let task := jsTrim (stripLeadingBulletMarker line)
      if task.data.length > 0 then task :: acc else acc
    else acc) []

/-- Concrete AI reflection used for the C7 round-trip: all four headers,
two bullets each, preceded by a discarded preamble and a discarded stray
bullet. -/
def sampleReflection : String :=
  "Great week overall\n- stray bullet before any header\n**What Went Well:**\n- a1\n- a2\n\n**What Went Wrong:**\n- b1\n- b2\n**Possible Reasons:**\n- c1\n- c2\n**Suggestions for Next Week:**\n- d1\n- d2"

end AiTimetable

namespace AiTimetable

/-! ### Claim theorems for the Orchestrator and the HuggingFace adapter -/

theorem tryProviders_eq_findSome (env : String → Except String String) (l : List String) :
    tryProviders env l =
      match (l.filter (fun p => p ∈ PROVIDER_ORDER)).findSome?
          (fun p => (env p).toOption) with
      | some t => .ok t
      | none => .error allProvidersMsg := by
  induction l with
  | nil => rfl
  | cons p rest ih =>
    by_cases hp : p ∈ PROVIDER_ORDER
    · cases henv : env p with
      | ok t => simp [tryProviders, hp, List.filter_cons, List.findSome?, henv, Except.toOption]
      | error e =>
        simp [tryProviders, hp, List.filter_cons, List.findSome?, henv, Except.toOption, ih]
    · simp [tryProviders, hp, List.filter_cons, ih]

/-- C1: for every prompt environment and provider chain, `callAI` tries the
known providers in order without ever trying one twice in a call, returns
the text of the first succeeding provider, and exactly when every provider
fails it raises the single constant aggregate message, which carries no
individual provider error. -/
theorem callAI_orchestration (primary : Option String) (env : String → Except String String) :
    ((providersFor primary).filter (fun p => p ∈ PROVIDER_ORDER)).Nodup ∧
    callAI primary env =
      match ((providersFor primary).filter (fun p => p ∈ PROVIDER_ORDER)).findSome?
          (fun p => (env p).toOption) with
      | some t => .ok t
      | none => .error allProvidersMsg := by
  constructor
  · rcases primary with _ | p
    · decide
    · have hORD : PROVIDER_ORDER.Nodup := by decide
      have hl2 : ((PROVIDER_ORDER.filter (fun q => ¬ q = p)).filter
          (fun q => q ∈ PROVIDER_ORDER)).Nodup :=
        (hORD.filter _).filter _
      have hp_not : p ∉ (PROVIDER_ORDER.filter (fun q => ¬ q = p)).filter
          (fun q => q ∈ PROVIDER_ORDER) := by
        intro h
        have h1 := List.mem_of_mem_filter h
        have h2 := List.of_mem_filter h1
        simp at h2
      by_cases hp : p ∈ PROVIDER_ORDER
      · have heq : (providersFor (some p)).filter (fun q => q ∈ PROVIDER_ORDER) =
            p :: (PROVIDER_ORDER.filter (fun q => ¬ q = p)).filter
              (fun q => q ∈ PROVIDER_ORDER) := by
          simp [providersFor, List.filter_cons, hp]
        rw [heq]
        exact List.nodup_cons.mpr ⟨hp_not, hl2⟩
      · have heq : (providersFor (some p)).filter (fun q => q ∈ PROVIDER_ORDER) =
            (PROVIDER_ORDER.filter (fun q => ¬ q = p)).filter
              (fun q => q ∈ PROVIDER_ORDER) := by
          simp [providersFor, List.filter_cons, hp]
        rw [heq]
        exact hl2
  · exact tryProviders_eq_findSome env _

/-- C2 counterexample: the HuggingFace adapter does not stop after one
automatic retry — on a trace with two consecutive loading errors followed
by a success it issues three requests (two retries) and still returns the
success, so "never performs more than one automatic retry per invocation"
is false. -/
theorem hf_single_retry_refuted :
    hfAttempts [HFResp.failure true, HFResp.failure true, HFResp.success "ok"] = 3 ∧
    ¬ hfAttempts [HFResp.failure true, HFResp.failure true, HFResp.success "ok"] ≤ 2 ∧
    callHuggingFace true [HFResp.failure true, HFResp.failure true, HFResp.success "ok"] =
      .ok "ok" := by
  refine ⟨rfl, by decide, rfl⟩

/-- C2 amended: on a loading error the adapter waits its fixed 20-second
backoff and recursively re-invokes itself with no retry bound: with `k`
consecutive loading responses followed by any non-loading response it
issues exactly `k + 1` requests and returns the outcome of that response
(trimmed text on success, failure otherwise). -/
theorem hf_unbounded_loading_retry (k : Nat) (r : HFResp) (rest : List HFResp)
    (hr : isLoading r = false) :
    hfAttempts (List.replicate k (HFResp.failure true) ++ r :: rest) = k + 1 ∧
    callHuggingFace true (List.replicate k (HFResp.failure true) ++ r :: rest) =
      (match r with
       | .success t => .ok (jsTrim t)
       | _ => .error "HuggingFace API Error") := by
  induction k with
  | zero =>
    cases r with
    | success t => exact ⟨rfl, rfl⟩
    | failure b =>
      cases b with
      | false => exact ⟨rfl, rfl⟩
      | true => simp [isLoading] at hr
  | succ n ih =>
    refine ⟨?_, ?_⟩
    · have h1 : hfAttempts (List.replicate (n + 1) (HFResp.failure true) ++ r :: rest) =
          1 + hfAttempts (List.replicate n (HFResp.failure true) ++ r :: rest) := by
        simp [List.replicate_succ, hfAttempts]
      rw [h1, ih.1]
      omega
    · have h2 : callHuggingFace true (List.replicate (n + 1) (HFResp.failure true) ++ r :: rest) =
          callHuggingFace true (List.replicate n (HFResp.failure true) ++ r :: rest) := by
        simp [List.replicate_succ, callHuggingFace, hfRun]
      rw [h2, ih.2]

/-- C2 amended, witness at a concrete trace: two loading errors then a
success means three requests and the trimmed success text. -/
theorem hf_unbounded_loading_retry_witness :
    isLoading (HFResp.success "hi") = false ∧
    (hfAttempts (List.replicate 2 (HFResp.failure true) ++ [HFResp.success "hi"]) = 2 + 1 ∧
     callHuggingFace true (List.replicate 2 (HFResp.failure true) ++ [HFResp.success "hi"]) =
       .ok (jsTrim "hi")) :=
  ⟨rfl, hf_unbounded_loading_retry 2 (.success "hi") [] rfl⟩

/-! ### Claim theorems for the overthinking guard -/

/-- C4: whenever the AI elaboration call fails and the guard is on an
AI-invoking path (`editCount ≥ 5`), `checkOverthinking` still resolves,
with the canned rule-based warning selected by the editCount thresholds
(≥ 10 the STOP-PLANNING message, then ≥ 7, then ≥ 5) and `fallbackMode`
set. -/
theorem checkOverthinking_ai_failure (e d : Nat)
    (ai : Nat → String → Except String String)
    (hai : ∀ n s, (ai n s).isOk = false) (he : 5 ≤ e) :
    checkOverthinking e d ai =
      { success := true, triggered := true,
        severity := some (if e ≥ 10 then "severe" else "moderate"),
        editCount := none, daysInactive := none,
        message := some (getRuleBasedWarning e), fallbackMode := true } ∧
    (e ≥ 10 → getRuleBasedWarning e =
      "🛑 STOP PLANNING! You\x27ve edited this 10+ times. Start executing NOW.") ∧
    (e ≥ 7 → e < 10 → getRuleBasedWarning e =
      "⚠️ Too much planning. Time to take action. Execution beats perfection.") ∧
    (e ≥ 5 → e < 7 → getRuleBasedWarning e =
      "💭 You\x27ve planned enough. Start working on your first task right now.") := by
  refine ⟨?_, ?_, ?_, ?_⟩
  · have htrig : (decide (e ≥ 5)) = true := by simpa using he
    unfold checkOverthinking checkOverthinkingBody
    rw [if_neg (by omega : ¬ (e < 5 ∧ d < 3))]
    by_cases h10 : e ≥ 10
    · rw [if_pos h10]
      cases hA : ai e "severe" with
      | ok v =>
        have hne := hai e "severe"
        rw [hA] at hne
        simp [Except.isOk, Except.toBool] at hne
      | error msg => simp [generateAIWarning, Except.map, hA, htrig]
    · rw [if_neg h10, if_pos he]
      cases hA : ai e "moderate" with
      | ok v =>
        have hne := hai e "moderate"
        rw [hA] at hne
        simp [Except.isOk, Except.toBool] at hne
      | error msg => simp [generateAIWarning, Except.map, hA, htrig]
  · intro h10
    simp [getRuleBasedWarning, h10]
  · intro h7 h10
    have h10n : ¬ e ≥ 10 := by omega
    simp [getRuleBasedWarning, h10n, h7]
  · intro h5 h7
    have h10n : ¬ e ≥ 10 := by omega
    have h7n : ¬ e ≥ 7 := by omega
    simp [getRuleBasedWarning, h10n, h7n, h5]

/-- C4, witness at `editCount = 10`, `daysInactive = 0` with an
always-failing AI oracle. -/
theorem checkOverthinking_ai_failure_witness :
    checkOverthinking 10 0 (fun _ _ => .error "down") =
      { success := true, triggered := true,
        severity := some (if (10 : Nat) ≥ 10 then "severe" else "moderate"),
        editCount := none, daysInactive := none,
        message := some (getRuleBasedWarning 10), fallbackMode := true } :=
  (checkOverthinking_ai_failure 10 0 (fun _ _ => .error "down")
    (fun _ _ => rfl) (by decide)).1

/-- C6: the four-level severity of `getSeverityLevel` is monotone
non-decreasing in both the edit count and the inactivity days, and the
`triggered` field of the guard always equals `editCount ≥ 5 ∨ daysInactive ≥ 3`
(i.e. `shouldWarnUser`), whatever the AI oracle does. -/
theorem severity_monotone_triggered :
    (∀ e₁ d₁ e₂ d₂, e₁ ≤ e₂ → d₁ ≤ d₂ →
      sevRank (getSeverityLevel e₁ d₁) ≤ sevRank (getSeverityLevel e₂ d₂)) ∧
    (∀ e d ai, (checkOverthinking e d ai).triggered = shouldWarnUser e d) := by
  constructor
  · intro e₁ d₁ e₂ d₂ h₁ h₂
    unfold getSeverityLevel
    split_ifs <;> first | decide | omega
  · intro e d ai
    unfold checkOverthinking checkOverthinkingBody shouldWarnUser
    by_cases h1 : e < 5 ∧ d < 3
    · rw [if_pos h1]
      have hfalse : (decide (e ≥ 5) || decide (d ≥ 3)) = false := by
        simp only [Bool.or_eq_false_iff, decide_eq_false_iff_not]
        omega
      simp [hfalse]
    · rw [if_neg h1]
      have htrue : (decide (e ≥ 5) || decide (d ≥ 3)) = true := by
        simp only [Bool.or_eq_true, decide_eq_true_eq]
        omega
      by_cases h10 : e ≥ 10
      · rw [if_pos h10]
        cases hA : ai e "severe" with
        | ok v => simp [generateAIWarning, Except.map, hA, htrue]
        | error msg =>
          simp [generateAIWarning, Except.map, hA, htrue]
          all_goals omega
      · rw [if_neg h10]
        by_cases h5 : e ≥ 5
        · rw [if_pos h5]
          cases hA : ai e "moderate" with
          | ok v => simp [generateAIWarning, Except.map, hA, htrue]
          | error msg =>
            simp [generateAIWarning, Except.map, hA, htrue]
            all_goals omega
        · rw [if_neg h5]
          simp [htrue]

/-- C6, witness at concrete inputs: severity ranks are ordered at
`(0,0) ≤ (5,7)` and `triggered` agrees with `shouldWarnUser` at
`(6,0)`. -/
theorem severity_monotone_triggered_witness :
    sevRank (getSeverityLevel 0 0) ≤ sevRank (getSeverityLevel 5 7) ∧
    (checkOverthinking 6 0 (fun _ _ => .ok "m")).triggered = shouldWarnUser 6 0 :=
  ⟨severity_monotone_triggered.1 0 0 5 7 (by decide) (by decide),
   severity_monotone_triggered.2 6 0 (fun _ _ => .ok "m")⟩

/-- C9: the severity values `checkOverthinking` actually reports —
`"severe"` for `editCount ≥ 10` (never `"critical"`), `"moderate"` for
`5 ≤ editCount < 10`, `"inactive"` for an inactivity-only trigger — lie in
{severe, moderate, inactive} on triggered paths, with {severe, moderate}
on the fallback path, and never the four-level value `"critical"`. -/
theorem checkOverthinking_severity_values :
    (∀ e d ai v, ai e "severe" = .ok v → 10 ≤ e →
      (checkOverthinking e d ai).severity = some "severe") ∧
    (∀ e d ai v, ai e "moderate" = .ok v → 5 ≤ e → e < 10 →
      (checkOverthinking e d ai).severity = some "moderate") ∧
    (∀ e d ai, e < 5 → 3 ≤ d →
      (checkOverthinking e d ai).severity = some "inactive") ∧
    (∀ e d ai, (checkOverthinking e d ai).fallbackMode = true →
      (checkOverthinking e d ai).severity = some "severe" ∨
      (checkOverthinking e d ai).severity = some "moderate") ∧
    (∀ e d ai, ¬ (checkOverthinking e d ai).severity = some "critical") := by
  have hres : ∀ e d ai, (checkOverthinking e d ai).severity = none ∨
      (checkOverthinking e d ai).severity = some "severe" ∨
      (checkOverthinking e d ai).severity = some "moderate" ∨
      (checkOverthinking e d ai).severity = some "inactive" := by
    intro e d ai
    unfold checkOverthinking checkOverthinkingBody
    by_cases h1 : e < 5 ∧ d < 3
    · rw [if_pos h1]; simp
    · rw [if_neg h1]
      by_cases h10 : e ≥ 10
      · rw [if_pos h10]
        cases hA : ai e "severe" with
        | ok v => simp [generateAIWarning, Except.map, hA]
        | error msg => simp [generateAIWarning, Except.map, hA, h10]
      · rw [if_neg h10]
        by_cases h5 : e ≥ 5
        · rw [if_pos h5]
          cases hA : ai e "moderate" with
          | ok v => simp [generateAIWarning, Except.map, hA]
          | error msg => simp [generateAIWarning, Except.map, hA, h10]
        · rw [if_neg h5]; simp
  refine ⟨?_, ?_, ?_, ?_, ?_⟩
  · intro e d ai v hA h10
    unfold checkOverthinking checkOverthinkingBody
    rw [if_neg (by omega : ¬ (e < 5 ∧ d < 3)), if_pos (by omega : e ≥ 10)]
    simp [generateAIWarning, Except.map, hA]
  · intro e d ai v hA h5 h10
    unfold checkOverthinking checkOverthinkingBody
    rw [if_neg (by omega : ¬ (e < 5 ∧ d < 3)), if_neg (by omega : ¬ e ≥ 10),
      if_pos (by omega : e ≥ 5)]
    simp [generateAIWarning, Except.map, hA]
  · intro e d ai h5 h3
    unfold checkOverthinking checkOverthinkingBody
    rw [if_neg (by omega : ¬ (e < 5 ∧ d < 3)), if_neg (by omega : ¬ e ≥ 10),
      if_neg (by omega : ¬ e ≥ 5)]
  · intro e d ai hfb
    unfold checkOverthinking checkOverthinkingBody at hfb ⊢
    by_cases h1 : e < 5 ∧ d < 3
    · rw [if_pos h1] at hfb
      simp at hfb
    · rw [if_neg h1] at hfb ⊢
      by_cases h10 : e ≥ 10
      · rw [if_pos h10] at hfb ⊢
        cases hA : ai e "severe" with
        | ok v => simp [generateAIWarning, Except.map, hA] at hfb
        | error msg =>
          left
          simp [generateAIWarning, Except.map, hA, h10]
      · rw [if_neg h10] at hfb ⊢
        by_cases h5 : e ≥ 5
        · rw [if_pos h5] at hfb ⊢
          cases hA : ai e "moderate" with
          | ok v => simp [generateAIWarning, Except.map, hA] at hfb
          | error msg =>
            right
            simp [generateAIWarning, Except.map, hA, h10]
        · rw [if_neg h5] at hfb
          simp at hfb
  · intro e d ai h
    rcases hres e d ai with h0 | h0 | h0 | h0 <;> rw [h0] at h <;> simp at h

/-- C9, witness: at `editCount = 10` with a succeeding oracle the severity
is `"severe"` (not `"critical"`), and an inactivity-only trigger at
`(0, 3)` yields `"inactive"`. -/
theorem checkOverthinking_severity_values_witness :
    (checkOverthinking 10 0 (fun _ _ => .ok "m")).severity = some "severe" ∧
    (checkOverthinking 0 3 (fun _ _ => .ok "m")).severity = some "inactive" :=
  ⟨checkOverthinking_severity_values.1 10 0 (fun _ _ => .ok "m") "m" rfl (by decide),
   checkOverthinking_severity_values.2.2.1 0 3 (fun _ _ => .ok "m") (by decide) (by decide)⟩

/-! ### Claim theorems for the feasibility checker -/

/-- C3 counterexample: with a single Monday task the daily loads sum to 2,
but the reported `averageLoad` is the one-decimal rounding 0.3, not 2/7 —
so "averageLoad equals the sum of the computed daily loads divided by 7"
is false. -/
theorem feasibility_average_refuted :
    (performRuleBasedChecks [{ day := "Monday" }] "okay").averageLoad ≠
      (((((performRuleBasedChecks [{ day := "Monday" }] "okay").dailyBreakdown.map
        (fun d => d.load)).sum : ℕ) : ℚ)) / 7 := by
  have h1 : (performRuleBasedChecks [{ day := "Monday" }] "okay").averageLoad =
      (jsRound (((2 : ℕ) : ℚ) / 7 * 10) : ℚ) / 10 := rfl
  have h2 : ((((performRuleBasedChecks [{ day := "Monday" }] "okay").dailyBreakdown.map
      (fun d => d.load)).sum : ℕ) : ℚ) = ((2 : ℕ) : ℚ) := rfl
  have h3 : jsRound (((2 : ℕ) : ℚ) / 7 * 10) = 3 := by
    rw [jsRound]
    rw [show ((2 : ℕ) : ℚ) / 7 * 10 + 1 / 2 = 47 / 14 by push_cast; ring]
    rw [Int.floor_eq_iff]
    constructor <;> norm_num
  rw [h1, h2, h3]
  norm_num

/-- C3 amended: the reported `averageLoad` is the sum of the daily loads
divided by 7 and then rounded to one decimal (`Math.round` of ten times the
average, divided by 10); `totalLoad` is exactly that sum; and `feasible`
(resp. `hasIssues`) is computed from the unrounded average:
`feasible = (sum/7 ≤ 6 AND heavyDayCount ≤ 2)`. -/
theorem feasibility_fields_spec (dailyTasks : List PlanTask) (mood : String) :
    (performRuleBasedChecks dailyTasks mood).totalLoad =
      (((performRuleBasedChecks dailyTasks mood).dailyBreakdown.map
        (fun d => d.load)).sum) ∧
    (performRuleBasedChecks dailyTasks mood).averageLoad =
      (jsRound (((performRuleBasedChecks dailyTasks mood).totalLoad : ℚ) / 7 * 10) : ℚ) / 10 ∧
    (performRuleBasedChecks dailyTasks mood).feasible =
      (decide (((performRuleBasedChecks dailyTasks mood).totalLoad : ℚ) / 7 ≤ 6) &&
       decide ((performRuleBasedChecks dailyTasks mood).heavyDays.length ≤ 2)) ∧
    (performRuleBasedChecks dailyTasks mood).hasIssues =
      (decide ((performRuleBasedChecks dailyTasks mood).heavyDays.length > 0) ||
       decide (((performRuleBasedChecks dailyTasks mood).totalLoad : ℚ) / 7 > 5)) :=
  ⟨rfl, rfl, rfl, rfl⟩

theorem filter_day_of_filter_canonical (d : String) (hd : d ∈ DAYS) (ts : List PlanTask) :
    (ts.filter (fun t => t.day ∈ DAYS)).filter (fun t => t.day = d) =
      ts.filter (fun t => t.day = d) := by
  induction ts with
  | nil => rfl
  | cons t rest ih =>
    by_cases h : t.day = d
    · simp [List.filter_cons, h, hd, ih]
    · by_cases hm : t.day ∈ DAYS <;> simp [List.filter_cons, hm, h, ih]

theorem groupTasksByDay_filter_canonical (ts : List PlanTask) :
    groupTasksByDay (ts.filter (fun t => t.day ∈ DAYS)) = groupTasksByDay ts := by
  unfold groupTasksByDay
  apply List.map_congr_left
  intro d hd
  rw [filter_day_of_filter_canonical d hd]

/-- C10: tasks whose `day` is not one of the seven canonical names are
invisible to every field of the rule-based analysis except `totalTasks`
(which still counts them); at a concrete one-task plan on day "Everyday"
the total load is 0 while `2 × totalTasks = 2`, so `totalLoad` can be
strictly below `2 × totalTasks`. -/
theorem noncanonical_days_excluded :
    (∀ dailyTasks mood, performRuleBasedChecks dailyTasks mood =
      { performRuleBasedChecks (dailyTasks.filter (fun t => t.day ∈ DAYS)) mood with
        totalTasks := dailyTasks.length }) ∧
    (performRuleBasedChecks [{ day := "Everyday" }] "okay").totalTasks = 1 ∧
    (performRuleBasedChecks [{ day := "Everyday" }] "okay").totalLoad = 0 ∧
    (performRuleBasedChecks [{ day := "Everyday" }] "okay").totalLoad <
      2 * (performRuleBasedChecks [{ day := "Everyday" }] "okay").totalTasks := by
  refine ⟨?_, rfl, rfl, by decide⟩
  intro ts mood
  simp only [performRuleBasedChecks, groupTasksByDay_filter_canonical]

/-! ### Claim theorems for the task downgrade -/

/-- C5: `suggestTaskDowngrade` always resolves with `success` and always
carries the rule-based suggestion; when the AI call fails the result holds
only the rule-based suggestion (`aiGenerated = none`) with `fallbackMode`
set, and when the AI call succeeds the rule-based suggestion is still
returned beside the AI one. -/
theorem suggestTaskDowngrade_resolves (taskName difficulty : String) (missedCount : Nat) :
    (∀ err, suggestTaskDowngrade taskName difficulty missedCount (.error err) =
      { success := true, originalTask := taskName, difficulty := none, missedCount := none,
        suggestions := { ruleBased := getRuleBasedDowngrade taskName difficulty,
                         aiGenerated := none },
        fallbackMode := true,
        message := "Consider this easier alternative for \"" ++ taskName ++ "\":" }) ∧
    (∀ s, suggestTaskDowngrade taskName difficulty missedCount (.ok s) =
      { success := true, originalTask := taskName, difficulty := some difficulty,
        missedCount := some missedCount,
        suggestions := { ruleBased := getRuleBasedDowngrade taskName difficulty,
                         aiGenerated := some (jsTrim s) },
        fallbackMode := false,
        message := "You\x27ve missed \"" ++ taskName ++ "\" " ++ toString missedCount ++
          " times. Here\x27s an easier alternative to keep momentum:" }) ∧
    (∀ ai, (suggestTaskDowngrade taskName difficulty missedCount ai).success = true ∧
      (suggestTaskDowngrade taskName difficulty missedCount ai).suggestions.ruleBased =
        getRuleBasedDowngrade taskName difficulty) := by
  refine ⟨fun err => rfl, fun s => rfl, fun ai => ?_⟩
  cases ai <;> exact ⟨rfl, rfl⟩

/-! ### Claim theorems for the response parser -/

/-- C8 counterexample: a line whose trimmed form starts with the `*`
marker is claimed kept (as "foo") but the `/generate-tasks` extraction
drops it, because that extraction only accepts `•` and `-`. -/
theorem bullet_extraction_refuted :
    extractGeneratedTasks "* foo" = [] ∧
    claimedBulletExtract "* foo" = ["foo"] ∧
    jsStartsWith (jsTrim "* foo") "*" = true := by
  refine ⟨rfl, rfl, rfl⟩

theorem filter_map_filter_foldr {α β : Type} (p : α → Bool) (f : α → β) (q : β → Bool)
    (l : List α) :
    ((l.filter p).map f).filter q =
      l.foldr (fun x acc => if p x then (if q (f x) then f x :: acc else acc) else acc) [] := by
  induction l with
  | nil => rfl
  | cons x xs ih =>
    by_cases hp : p x
    · by_cases hq : q (f x) <;> simp [List.filter_cons, hp, hq, ih]
    · simp [List.filter_cons, hp, ih]

/-- C8 amended: the task extraction keeps exactly the lines whose trimmed
form starts with `•` or `-` (`*` is not a marker here); the marker and its
following whitespace are stripped only when the marker begins the raw
line, otherwise the trimmed line keeps its marker; empty results are
discarded; the pass is order-preserving and does not deduplicate
(witnessed by the duplicate-keeping and indented-line instances). -/
theorem bullet_extraction_amended :
    (∀ text, extractGeneratedTasks text = amendedBulletExtract text) ∧
    extractGeneratedTasks "- a\n- b\n- a" = ["a", "b", "a"] ∧
    extractGeneratedTasks " - indented" = ["- indented"] := by
  refine ⟨?_, rfl, rfl⟩
  intro text
  unfold extractGeneratedTasks amendedBulletExtract
  rw [filter_map_filter_foldr]
  simp only [decide_eq_true_eq]

theorem pushSection_keys (acc : List (String × List String)) (k v : String) :
    (pushSection acc k v).map Prod.fst = acc.map Prod.fst := by
  unfold pushSection
  rw [List.map_map]
  apply List.map_congr_left
  intro p _
  by_cases h : p.1 = k <;> simp [h]

theorem parseStep_keys (st : Option String × List (String × List String)) (line : String) :
    ((parseStep st line).2).map Prod.fst = (st.2).map Prod.fst := by
  obtain ⟨c, secs⟩ := st
  simp only [parseStep]
  cases hH : headerFor (jsTrim line) with
  | some k => rfl
  | none =>
    cases c with
    | none => rfl
    | some cur =>
      by_cases hb : isBulletLine (jsTrim line) = true
      · by_cases hcn : bulletContent (jsTrim line) = ""
        · simp [hb, hcn]
        · simp [hb, hcn, pushSection_keys]
      · simp [hb]

theorem foldl_parseStep_keys :
    ∀ (lines : List String) (st : Option String × List (String × List String)),
      ((lines.foldl parseStep st).2).map Prod.fst = (st.2).map Prod.fst := by
  intro lines
  induction lines with
  | nil => intro st; rfl
  | cons l ls ih =>
    intro st
    simp only [List.foldl_cons]
    rw [ih (parseStep st l), parseStep_keys]

theorem lookup_pushSection_ne (k cur v : String) (h : ¬ k = cur) :
    ∀ acc : List (String × List String),
      (pushSection acc cur v).lookup k = acc.lookup k := by
  intro acc
  induction acc with
  | nil => rfl
  | cons p ps ih =>
    have hq : pushSection (p :: ps) cur v =
        (if p.1 = cur then (p.1, p.2 ++ [v]) else p) :: pushSection ps cur v := rfl
    rw [hq]
    by_cases h2 : k = p.1
    · have h1 : ¬ p.1 = cur := fun hh => h (h2.trans hh)
      rw [if_neg h1]
      simp [List.lookup, h2]
    · have hbeq : (k == p.1) = false := by simpa using h2
      by_cases h1 : p.1 = cur
      · rw [if_pos h1]
        simp only [List.lookup, hbeq]
        exact ih
      · rw [if_neg h1]
        simp only [List.lookup, hbeq]
        exact ih

theorem parseStep_preserves (k : String) (st : Option String × List (String × List String))
    (line : String) (hcur : ¬ st.1 = some k)
    (hline : ¬ headerFor (jsTrim line) = some k) :
    ¬ (parseStep st line).1 = some k ∧
    ((parseStep st line).2).lookup k = (st.2).lookup k := by
  obtain ⟨c, secs⟩ := st
  simp only [parseStep]
  cases hH : headerFor (jsTrim line) with
  | some k2 =>
    refine ⟨?_, rfl⟩
    intro hc2
    exact hline (hH.trans hc2)
  | none =>
    cases c with
    | none => exact ⟨hcur, rfl⟩
    | some cur =>
      have hck : ¬ k = cur := fun hh => hcur (by rw [hh])
      by_cases hb : isBulletLine (jsTrim line) = true
      · by_cases hcn : bulletContent (jsTrim line) = ""
        · simp only [hb, hcn, if_true]
          simp
          exact fun hh => hcur (by rw [hh])
        · simp only [hb, if_true]
          rw [if_pos hcn]
          refine ⟨fun hh => hcur hh, ?_⟩
          exact lookup_pushSection_ne k cur _ hck secs
      · simp only [Bool.not_eq_true] at hb
        rw [hb]
        exact ⟨hcur, rfl⟩

theorem foldl_parseStep_lookup (k : String) :
    ∀ (lines : List String) (st : Option String × List (String × List String)),
      ¬ st.1 = some k →
      (∀ l ∈ lines, ¬ headerFor (jsTrim l) = some k) →
      ((lines.foldl parseStep st).2).lookup k = (st.2).lookup k := by
  intro lines
  induction lines with
  | nil => intro st _ _; rfl
  | cons l ls ih =>
    intro st h1 h2
    have hstep := parseStep_preserves k st l h1 (h2 l (by simp))
    simp only [List.foldl_cons]
    rw [ih (parseStep st l) hstep.1 (fun x hx => h2 x (by simp [hx]))]
    exact hstep.2

set_option maxRecDepth 10000 in
/-- C7: section extraction always returns all four section keys (in their
pre-initialized order); on the concrete four-header sample with two bullets
per header it returns exactly those two-item lists in order (a preamble
line and a stray bullet before the first header are discarded); and a
section whose header phrase matches no line of the input ends up bound to
the empty (not missing) list. -/
theorem parseReflectionSections_spec :
    (∀ text, (parseReflectionSections text).map Prod.fst = sectionKeys) ∧
    parseReflectionSections sampleReflection =
      [("whatWentWell", ["a1", "a2"]), ("whatWentWrong", ["b1", "b2"]),
       ("possibleReasons", ["c1", "c2"]), ("suggestions", ["d1", "d2"])] ∧
    (∀ text k, k ∈ sectionKeys →
      (∀ l ∈ jsSplitNewlines text, ¬ headerFor (jsTrim l) = some k) →
      (parseReflectionSections text).lookup k = some []) := by
  refine ⟨?_, by decide, ?_⟩
  · intro text
    unfold parseReflectionSections
    rw [foldl_parseStep_keys]
    decide
  · intro text k hk hl
    unfold parseReflectionSections
    rw [foldl_parseStep_lookup k _ _ (by simp)
      (fun l hlf => hl l (List.mem_of_mem_filter hlf))]
    simp only [sectionKeys, List.mem_cons, List.not_mem_nil, or_false] at hk
    rcases hk with rfl | rfl | rfl | rfl <;> rfl

/-- C7, witness: an input with no recognized header leaves every section —
here `suggestions` — bound to the empty list. -/
theorem parseReflectionSections_spec_witness :
    (parseReflectionSections "hello\n- stray").lookup "suggestions" = some [] :=
  parseReflectionSections_spec.2.2 "hello\n- stray" "suggestions" (by decide) (by decide)

end AiTimetable
